import Mathlib

/-!
# Verification of the WPT threat-scoring and check-orchestration core

Shallow embedding of the scoring/aggregation engine of `src/clike3.py`:
the Scorer (`calculate_threat_score`), the Aggregator
(`calculate_overall_threat_score`, `get_threat_category`), and the
orchestration slices of `run_all_checks`, `process_url` and
`process_url_with_results` that touch the threat-score state, together
with the check functions whose payloads feed the Scorer.

Modelling conventions:
* Python values flowing through check payloads are modelled by the
  inductive `Value` (None, bool, int, str, list, dict).  Python floats do
  not occur in the payload fields the Scorer reads; the float weights of
  the Aggregator are modelled by exact rationals.
* Python dicts are association lists in insertion order (Python 3.7+
  dicts preserve insertion order).
* Code that can raise returns `Except PyErr`; an uncaught Python
  exception is the `.error` constructor.
* Network fetch, DNS, TLS sockets, HTML parsing and regex extraction are
  external collaborators; they appear as abstract inputs to the embedded
  functions (e.g. a header lookup function, a list of parsed cookies).
-/

namespace WPT

/-- Python exceptions that the embedded code can raise. -/
inductive PyErr where
  | typeError
  | keyError (key : String)
  | exn (msg : String)
deriving DecidableEq, Repr

/-- Python values as they occur in check payloads. -/
inductive Value where
  | none
  | bool (b : Bool)
  | int (n : Int)
  | str (s : String)
  | list (l : List Value)
  | dict (d : List (String × Value))

/-- Python truthiness (`if v:`) for `Value`. -/
def truthy : Value → Bool
  | .none => false
  | .bool b => b
  | .int n => !(n == 0)
  | .str s => !(s == "")
  | .list l => !l.isEmpty
  | .dict d => !d.isEmpty

/-- Association-list lookup: Python `k in d` / `d[k]` on an
insertion-ordered dict. -/
def dictGet {α : Type} : List (String × α) → String → Option α
  | [], _ => Option.none
  | (k', v) :: rest, k => if k' = k then Option.some v else dictGet rest k

/-- Python `d.get(k, default)`. -/
def dictGetD (d : List (String × Value)) (k : String) (dflt : Value) : Value :=
  (dictGet d k).getD dflt

/-- Python `d[k] = v`: update in place if the key exists (keeping its
position), otherwise append. -/
def dictSet {α : Type} : List (String × α) → String → α → List (String × α)
  | [], k, v => [(k, v)]
  | (k', v') :: rest, k, v =>
      if k' = k then (k', v) :: rest else (k', v') :: dictSet rest k v

/-- `if cond: score += c` — the contribution of one conditional finding. -/
def pts (cond : Bool) (c : Int) : Int := if cond then c else 0

/-- Python `score + v * c` for a payload value `v` read from a numeric
field: ints multiply, bools coerce to 0/1, anything else makes the
addition into `score` raise `TypeError` (e.g. `0 + "x"*10`). -/
def pyIntTimes (v : Value) (c : Int) : Except PyErr Int :=
  match v with
  | .int n => .ok (n * c)
  | .bool b => .ok (if b then c else 0)
  | _ => .error .typeError

/-- Python `len(v)`: defined on str/list/dict, `TypeError` otherwise. -/
def pyLen (v : Value) : Except PyErr Int :=
  match v with
  | .str s => .ok (s.length : Int)
  | .list l => .ok (l.length : Int)
  | .dict d => .ok (d.length : Int)
  | _ => .error .typeError

/-- The accumulated `score` of `calculate_threat_score`
(clike3.py:819-920) for a dict payload, just before the final
`min(score, 100)` cap.  Branches mirror the source's
`if check_name == ...` chain. -/
def threat_score_dict (check_name : String) (d : List (String × Value)) : Except PyErr Int :=
  if check_name = "security" then
    .ok (pts (!truthy (dictGetD d "is_https" (.bool false))) 30 +
      pts (!truthy (dictGetD d "hsts" (.bool false))) 10 +
      pts (!truthy (dictGetD d "content_security_policy" (.bool false))) 10 +
      pts (!truthy (dictGetD d "x_content_type_options" (.bool false))) 5 +
      pts (!truthy (dictGetD d "x_frame_options" (.bool false))) 5 +
      pts (!truthy (dictGetD d "x_xss_protection" (.bool false))) 5)
  else if check_name = "mixed_content" then
    .ok (pts (truthy (dictGetD d "has_mixed_content" (.bool false))) 40)
  else if check_name = "cookie_sec" then
    match pyIntTimes (dictGetD d "cookies_without_secure" (.int 0)) 10 with
    | .error e => .error e
    | .ok s1 =>
      match pyIntTimes (dictGetD d "cookies_without_httponly" (.int 0)) 8 with
      | .error e => .error e
      | .ok s2 =>
        match pyIntTimes (dictGetD d "cookies_without_samesite" (.int 0)) 5 with
        | .error e => .error e
        | .ok s3 => .ok (s1 + s2 + s3)
  else if check_name = "clickjacking" then
    .ok (pts (!truthy (dictGetD d "protected" (.bool false))) 25)
  else if check_name = "csp" then
    .ok (pts (!truthy (dictGetD d "has_csp" (.bool false))) 20 +
      pts (truthy (dictGetD d "has_unsafe_inline" (.bool false))) 10 +
      pts (truthy (dictGetD d "has_unsafe_eval" (.bool false))) 10)
  else if check_name = "iframe_security" then
    match pyLen (dictGetD d "insecure_iframes" (.list [])) with
    | .error e => .error e
    | .ok n => .ok (n * 15)
  else if check_name = "ssl" then
    .ok (pts (!truthy (dictGetD d "valid" (.bool true))) 40 +
      pts (truthy (dictGetD d "expired" (.bool false))) 40 +
      pts (truthy (dictGetD d "self_signed" (.bool false))) 20 +
      pts (truthy (dictGetD d "weak_signature" (.bool false))) 15)
  else if check_name = "vulns" then
    match pyLen (dictGetD d "vulnerabilities" (.list [])) with
    | .error e => .error e
    | .ok n => .ok (n * 20)
  else if check_name = "passwords" then
    pyIntTimes (dictGetD d "insecure_password_forms" (.int 0)) 30
  else if check_name = "deserialize" then
    .ok (pts (truthy (dictGetD d "potentially_vulnerable" (.bool false))) 35)
  else if check_name = "leaks" then
    match pyLen (dictGetD d "sensitive_info" (.list [])) with
    | .error e => .error e
    | .ok n => .ok (n * 15)
  else if check_name = "sec_headers" then
    match pyLen (dictGetD d "missing_headers" (.list [])) with
    | .error e => .error e
    | .ok n => .ok (n * 5)
  else .ok 0

/-- The accumulated `score` for an arbitrary payload: every branch of
the source is guarded by the same `isinstance(data, dict)` test, so a
non-dict payload leaves the score at 0 for every kind (the test is
hoisted here). -/
def threat_score_raw (check_name : String) (data : Value) : Except PyErr Int :=
  match data with
  | .dict d => threat_score_dict check_name d
  | _ => .ok 0

/-- `calculate_threat_score` (clike3.py:819-922): the branch score,
capped by `return min(score, 100)`. -/
def calculate_threat_score (check_name : String) (data : Value) : Except PyErr Int :=
  match threat_score_raw check_name data with
  | .error e => .error e
  | .ok s => .ok (min s 100)

example : calculate_threat_score "security" (Value.dict []) = .ok 65 := rfl
example : calculate_threat_score "cookie_sec"
    (Value.dict [("cookies_without_secure", .int 2), ("cookies_without_httponly", .int 1),
      ("cookies_without_samesite", .int 0)]) = .ok 28 := rfl
example : calculate_threat_score "cookie_sec"
    (Value.dict [("cookies_without_secure", .int (-1))]) = .ok (-10) := rfl
example : calculate_threat_score "cookie_sec"
    (Value.dict [("cookies_without_secure", .str "x")]) = .error .typeError := rfl
example : calculate_threat_score "unknown_kind" (Value.dict [("a", .int 3)]) = .ok 0 := rfl

/-! ## Aggregator -/

/-- Python 3's `round` (banker's rounding, half to even), on exact
rationals. -/
def pyRound (x : ℚ) : ℤ :=
  if x - ⌊x⌋ < 1/2 then ⌊x⌋
  else if 1/2 < x - ⌊x⌋ then ⌊x⌋ + 1
  else if ⌊x⌋ % 2 = 0 then ⌊x⌋ else ⌊x⌋ + 1

/-- The fixed weight table of `calculate_overall_threat_score`
(clike3.py:994-1007); `weights.get(check, 1.0)` defaults to 1 for
unlisted kinds.  The Python float literals are modelled by the exact
rationals they denote in the source text. -/
def weightTable : List (String × ℚ) :=
  [("security", 6/5), ("ssl", 3/2), ("vulns", 3/2), ("csp", 6/5), ("clickjacking", 1),
   ("mixed_content", 6/5), ("passwords", 13/10), ("iframe_security", 4/5),
   ("cookie_sec", 1), ("deserialize", 1), ("leaks", 11/10), ("sec_headers", 9/10)]

/-- `weight = weights.get(check, 1.0)` (clike3.py:1013). -/
def weights (check : String) : ℚ :=
  (dictGet weightTable check).getD 1

/-- `total_score = Σ score * weight` over the per-check scores dict
(clike3.py:1012-1015). -/
def totalScoreQ (scores : List (String × Int)) : ℚ :=
  (scores.map (fun p => (p.2 : ℚ) * weights p.1)).sum

/-- `total_weight = Σ weight` over the per-check scores dict. -/
def totalWeightQ (scores : List (String × Int)) : ℚ :=
  (scores.map (fun p => weights p.1)).sum

/-- `get_threat_category` (clike3.py:925-936).  The function returns a
`(category, color)` pair; the color is terminal styling handled by the
Presentation collaborator and is omitted here. -/
def get_threat_category (score : Int) : String :=
  if score < 20 then "Low Risk"
  else if score < 40 then "Moderate Risk"
  else if score < 60 then "Medium Risk"
  else if score < 80 then "High Risk"
  else "Critical Risk"

/-- One stored contribution detail: `{"score": ..., "reason": ...}` as
written into `THREAT_DETAILS[url][check]`. -/
abbrev Detail := Int × String

/-- The global mutable scan state: `THREAT_SCORES` (url -> check ->
score) and `THREAT_DETAILS` (url -> check -> {score, reason}), both
insertion-ordered dicts (clike3.py:51-52). -/
structure ScanState where
  threat_scores : List (String × List (String × Int))
  threat_details : List (String × List (String × Detail))

/-- The paired statements `THREAT_SCORES[url][check] = score;
THREAT_DETAILS[url][check] = {...}` (e.g. clike3.py:2040-2044).  Python
raises `KeyError` on the inner assignment when the outer key `url` is
absent. -/
def writeThreat (st : ScanState) (url check : String) (score : Int) (reason : String) :
    Except PyErr ScanState :=
  match dictGet st.threat_scores url with
  | Option.none => .error (.keyError url)
  | Option.some ts =>
    match dictGet st.threat_details url with
    | Option.none => .error (.keyError url)
    | Option.some td =>
        .ok ⟨dictSet st.threat_scores url (dictSet ts check score),
             dictSet st.threat_details url (dictSet td check (score, reason))⟩

/-- `calculate_overall_threat_score` (clike3.py:978-1025): the weighted
arithmetic mean of the stored per-check scores, `int(round(...))`,
capped by `min(..., 100)`.  Reading `THREAT_DETAILS[url]` (line 987)
raises `KeyError` when the url is in `THREAT_SCORES` but not in
`THREAT_DETAILS`, hence the `Except` result. -/
def calculate_overall_threat_score (st : ScanState) (url : String) :
    Except PyErr (Int × List (String × Detail)) :=
  match dictGet st.threat_scores url with
  | Option.none => .ok (0, [])
  | Option.some scores =>
    match dictGet st.threat_details url with
    | Option.none => .error (.keyError url)
    | Option.some details =>
      if scores.isEmpty then .ok (0, [])
      else
        let total_weight := totalWeightQ scores
        if total_weight = 0 then .ok (0, details)
        else .ok (min (pyRound (totalScoreQ scores / total_weight)) 100, details)

example :
    calculate_overall_threat_score
      ⟨[("u", [("security", 50), ("ssl", 90)])], [("u", [])]⟩ "u" = .ok (72, []) := by
  simp [calculate_overall_threat_score, dictGet, totalScoreQ, totalWeightQ, weights,
    List.map, List.sum, pyRound]
  all_goals norm_num [Int.fract]

example : get_threat_category 72 = "High Risk" := rfl
example : get_threat_category 0 = "Low Risk" := rfl

example :
    calculate_overall_threat_score ⟨[("u", [("ssl", 90)])], [("u", [])]⟩ "u" =
      .ok (90, []) := by
  simp [calculate_overall_threat_score, dictGet, totalScoreQ, totalWeightQ, weights,
    weightTable, List.map, List.sum, pyRound]

/-! ## Orchestrator -/

/-- Python `s.startswith(p)`, on the character lists underlying the
strings (kernel-computable, unlike `String.startsWith`). -/
def strStartsWith (s p : String) : Bool :=
  p.data.isPrefixOf s.data

/-- `normalize_url` (clike3.py:100-104). -/
def normalize_url (url : String) : String :=
  if strStartsWith url "http://" || strStartsWith url "https://" then url
  else "http://" ++ url

/-- The fixed check sequence of `run_all_checks` (clike3.py:1028-1226),
in source order; the open-ports check is skipped in lite mode. -/
def checkOrder (liteMode : Bool) : List String :=
  ["title", "dns_info", "redirects", "forms", "network_info", "meta_tags", "cookies",
   "security", "images_count", "links", "words", "js_tags", "css_resources", "sitemap",
   "robots", "videos", "mobile", "header_tags", "language", "sql_leak", "cors", "csp",
   "feature_policy", "sensitive_files", "subdomains", "waf", "sec_headers", "leaks"] ++
  (if liteMode then [] else ["ports"]) ++
  ["ssl", "methods", "cookie_sec", "cache_headers", "server_info", "vulns", "clickjacking",
   "upload_forms", "passwords", "api_endpoints", "performance", "email_protection",
   "honeypots", "iframe_security", "third_party", "content_types", "mixed_content",
   "deserialize"]

/-- The straight-line body of `run_all_checks`: each check function is
called in turn with no surrounding try/except, so the first uncaught
exception propagates out of the whole function.  `checks` maps a check
name to the outcome of calling that check function (its printed result
is Presentation; none of these calls touches the threat-score state). -/
def run_checks_list (order : List String) (checks : String → Except PyErr Value) :
    Except PyErr Unit :=
  match order with
  | [] => .ok ()
  | c :: rest =>
    match checks c with
    | .error e => .error e
    | .ok _ => run_checks_list rest checks

/-- `run_all_checks` (clike3.py:1028-1226). -/
def run_all_checks (liteMode : Bool) (checks : String → Except PyErr Value) :
    Except PyErr Unit :=
  run_checks_list (checkOrder liteMode) checks

/-- The `args.all` path of `process_url` (clike3.py:1229-1258): the
threat dicts are seeded under the raw url, the url is normalized, the
fetch is checked (`if not response: return` — result `none`, no
assessment), all checks run, and the overall threat score is computed
and displayed.  HTML parsing is a collaborator modelled as succeeding. -/
def process_url_all (liteMode : Bool) (rawUrl : String) (fetchOk : Bool)
    (checks : String → Except PyErr Value) (st0 : ScanState) :
    Except PyErr (Option (Int × List (String × Detail))) :=
  let st1 : ScanState := ⟨dictSet st0.threat_scores rawUrl [], dictSet st0.threat_details rawUrl []⟩
  let url := normalize_url rawUrl
  if fetchOk then
    match run_all_checks liteMode checks with
    | .error e => .error e
    | .ok _ =>
      match calculate_overall_threat_score st1 url with
      | .error e => .error e
      | .ok sd => .ok (Option.some sd)
  else .ok Option.none

/-- The CLI flags relevant to scoring in `process_url_with_results`. -/
structure Args where
  all : Bool
  security : Bool
  ssl : Bool
  csp : Bool
  cors : Bool
  sec_headers : Bool
  cookie_sec : Bool
  clickjacking : Bool
  mixed_content : Bool
  vulns : Bool
  leaks : Bool
  passwords : Bool
  iframe_security : Bool
  deserialize : Bool

/-- The scoring-relevant entries of the `results` dict built by
`process_url_with_results` (clike3.py:1704-2007): each entry is stored
iff the individual flag or `args.all` is set, in source order.  `checks`
maps a scoring kind to the value its check function returned; the many
informational-only entries never reach the Scorer and are omitted. -/
def buildResults (args : Args) (checks : String → Value) : List (String × Value) :=
  (if args.security || args.all then [("security_info", checks "security")] else []) ++
  (if args.cors || args.all then [("cors_policy", checks "cors")] else []) ++
  (if args.csp || args.all then [("csp_policy", checks "csp")] else []) ++
  (if args.sec_headers || args.all then [("security_headers", checks "sec_headers")] else []) ++
  (if args.leaks || args.all then [("information_leaks", checks "leaks")] else []) ++
  (if args.ssl || args.all then [("ssl_info", checks "ssl")] else []) ++
  (if args.cookie_sec || args.all then [("cookie_security", checks "cookie_sec")] else []) ++
  (if args.vulns || args.all then [("vulnerabilities", checks "vulns")] else []) ++
  (if args.clickjacking || args.all then [("clickjacking", checks "clickjacking")] else []) ++
  (if args.passwords || args.all then [("password_forms", checks "passwords")] else []) ++
  (if args.iframe_security || args.all then [("iframe_security", checks "iframe_security")] else []) ++
  (if args.mixed_content || args.all then [("mixed_content", checks "mixed_content")] else []) ++
  (if args.deserialize || args.all then [("insecure_deserialization", checks "deserialize")] else [])

/-- One accumulation block of clike3.py:2038-2132, e.g.
`if args.security and "security_info" in results: score = calculate_threat_score(...);
THREAT_SCORES[url][...] = score; THREAT_DETAILS[url][...] = {...}`. -/
def scoreStep (cond : Bool) (results : List (String × Value)) (key kind reason url : String)
    (st : ScanState) : Except PyErr ScanState :=
  if cond then
    match dictGet results key with
    | Option.none => .ok st
    | Option.some v =>
      match calculate_threat_score kind v with
      | .error e => .error e
      | .ok score => writeThreat st url kind score reason
  else .ok st

/-- Chains one accumulation block after a possibly-failed previous one
(Python: an uncaught exception skips the rest of the function). -/
def andThenSt (e : Except PyErr ScanState) (f : ScanState → Except PyErr ScanState) :
    Except PyErr ScanState :=
  match e with
  | .error err => .error err
  | .ok st => f st

/-- The twelve accumulation blocks of clike3.py:2038-2132, in source
order.  Note every guard tests the individual flag (`args.security`,
`args.ssl`, ...), not `args.all`. -/
def scoringPhase (args : Args) (url : String) (results : List (String × Value))
    (st : ScanState) : Except PyErr ScanState :=
  andThenSt (scoreStep args.security results "security_info" "security"
      "HTTPS and security header issues" url st) (fun st =>
  andThenSt (scoreStep args.ssl results "ssl_info" "ssl"
      "SSL/TLS certificate issues" url st) (fun st =>
  andThenSt (scoreStep args.csp results "csp_policy" "csp"
      "Content Security Policy issues" url st) (fun st =>
  andThenSt (scoreStep args.clickjacking results "clickjacking" "clickjacking"
      "Clickjacking protection issues" url st) (fun st =>
  andThenSt (scoreStep args.mixed_content results "mixed_content" "mixed_content"
      "Mixed content issues" url st) (fun st =>
  andThenSt (scoreStep args.cookie_sec results "cookie_security" "cookie_sec"
      "Cookie security issues" url st) (fun st =>
  andThenSt (scoreStep args.leaks results "information_leaks" "leaks"
      "Information leakage issues" url st) (fun st =>
  andThenSt (scoreStep args.sec_headers results "security_headers" "sec_headers"
      "Missing security headers" url st) (fun st =>
  andThenSt (scoreStep args.vulns results "vulnerabilities" "vulns"
      "Vulnerability issues" url st) (fun st =>
  andThenSt (scoreStep args.passwords results "password_forms" "passwords"
      "Password form security issues" url st) (fun st =>
  andThenSt (scoreStep args.iframe_security results "iframe_security" "iframe_security"
      "Iframe security issues" url st) (fun st =>
  scoreStep args.deserialize results "insecure_deserialization" "deserialize"
      "Insecure deserialization issues" url st)))))))))))

/-- Whether the threat-score section runs at all
(clike3.py:2032-2036): `args.all or any([...13 flags...])`. -/
def anyScoringFlag (args : Args) : Bool :=
  args.all || args.security || args.ssl || args.csp || args.cors || args.sec_headers ||
  args.cookie_sec || args.clickjacking || args.mixed_content || args.vulns || args.leaks ||
  args.passwords || args.iframe_security || args.deserialize

/-- The scoring-relevant slice of `process_url_with_results`
(clike3.py:1672-2149): seed the threat dicts under the raw url
(lines 1682-1683), normalize the url (line 1685), bail out on fetch
failure (no assessment), build the results entries, and — if any scoring
flag is set — run the accumulation blocks, aggregate, and attach
`results["threat_score"]` (score, category, details).  Returns the final
state and the attached threat_score, `none` when no scoring flag is set
or the fetch failed. -/
def process_url_with_results_scoring (args : Args) (rawUrl : String) (fetchOk : Bool)
    (checks : String → Value) (st0 : ScanState) :
    Except PyErr (ScanState × Option (Int × String × List (String × Detail))) :=
  let st1 : ScanState := ⟨dictSet st0.threat_scores rawUrl [], dictSet st0.threat_details rawUrl []⟩
  let url := normalize_url rawUrl
  if fetchOk then
    let results := buildResults args checks
    if anyScoringFlag args then
      match scoringPhase args url results st1 with
      | .error e => .error e
      | .ok st2 =>
        match calculate_overall_threat_score st2 url with
        | .error e => .error e
        | .ok (score, details) =>
            .ok (st2, Option.some (score, get_threat_category score, details))
    else .ok (st1, Option.none)
  else .ok (st1, Option.none)

/-- `--all` with no individual flag set. -/
def argsAllOnly : Args :=
  ⟨true, false, false, false, false, false, false, false, false, false, false, false,
   false, false⟩

/-- Only `--security` set. -/
def argsSecurityOnly : Args :=
  ⟨false, true, false, false, false, false, false, false, false, false, false, false,
   false, false⟩

example :
    process_url_with_results_scoring argsAllOnly "http://example.com" true
      (fun _ => Value.dict []) ⟨[], []⟩ =
    .ok (⟨[("http://example.com", [])], [("http://example.com", [])]⟩,
      Option.some (0, "Low Risk", [])) := rfl

example :
    process_url_with_results_scoring argsSecurityOnly "example.com" true
      (fun _ => Value.dict []) ⟨[], []⟩ = .error (.keyError "http://example.com") := rfl

example :
    process_url_all false "http://example.com" true
      (fun c => if c = "dns_info" then .error (.exn "dns failure") else .ok (Value.dict []))
      ⟨[], []⟩ = .error (.exn "dns failure") := rfl

example :
    process_url_all false "http://example.com" true
      (fun _ => .ok (Value.dict [])) ⟨[], []⟩ = .ok (Option.some (0, [])) := rfl

/-! ## Check functions feeding the Scorer

Each check function is embedded over the data its collaborators hand it
(parsed cookies, header lookup, regex match counts, ...); the payload
dict it constructs mirrors the source key by key, in insertion order. -/

/-- A single-quote character, used inside CSP directive needles. -/
def sq : Char := Char.ofNat 39

/-- The literal `"'unsafe-inline'"` searched for in the CSP value. -/
def needleInline : String := String.mk (sq :: ("unsafe-inline".data ++ [sq]))

/-- The literal `"'unsafe-eval'"` searched for in the CSP value. -/
def needleEval : String := String.mk (sq :: ("unsafe-eval".data ++ [sq]))

/-- Bool-valued sublist-contiguous test on character lists. -/
def listInfix (needle : List Char) : List Char → Bool
  | [] => needle.isEmpty
  | c :: rest => needle.isPrefixOf (c :: rest) || listInfix needle rest

/-- Python `needle in s` substring test. -/
def strContains (s needle : String) : Bool :=
  listInfix needle.data s.data

/-- `check_csp_policy` (clike3.py:2427-2455).  `hdr` models the
case-insensitive `response.headers` mapping.  Note the findings are
stored under the keys `"unsafe_inline"` / `"unsafe_eval"`, while the
Scorer's csp branch reads `"has_unsafe_inline"` / `"has_unsafe_eval"`. -/
def check_csp_policy (hdr : String → Option String) : Value :=
  let csp := hdr "Content-Security-Policy"
  let cspStr := csp.getD ""
  let cspTruthy : Bool := match csp with
    | Option.some s => !(s == "")
    | Option.none => false
  let ui := cspTruthy && strContains cspStr needleInline
  let ue := cspTruthy && strContains cspStr needleEval
  let reportOnly := (hdr "Content-Security-Policy-Report-Only").isSome
  let policy : Value :=
    if cspTruthy then .str cspStr
    else if reportOnly then
      match hdr "Content-Security-Policy-Report-Only" with
      | Option.some s => .str s
      | Option.none => .none
    else .none
  Value.dict [("has_csp", .bool cspTruthy), ("policy", policy), ("unsafe_inline", .bool ui),
    ("unsafe_eval", .bool ue), ("report_only", .bool reportOnly)]

/-- The certificate data extracted on a fully successful TLS probe in
`check_ssl_info`. -/
structure CertInfo where
  subject : List (String × Value)
  issuer : List (String × Value)
  version : Value
  valid_from : String
  valid_until : String
  serial_number : String
  days_until_expiry : Int

/-- `check_ssl_info` (clike3.py:2774-2826): on any failure (socket error
or certificate-processing exception) the error message is recorded and
the initial fields remain; on success all fields are filled and
`days_until_expiry` is appended.  (Partial-failure paths inside the try
block touch the same fixed key set.) -/
def check_ssl_info (res : Except String CertInfo) : Value :=
  match res with
  | .error msg =>
      Value.dict [("has_ssl", .bool false), ("issuer", .none), ("subject", .none),
        ("version", .none), ("valid_from", .none), ("valid_until", .none),
        ("serial_number", .none), ("error", .str msg)]
  | .ok c =>
      Value.dict [("has_ssl", .bool true), ("issuer", .dict c.issuer),
        ("subject", .dict c.subject), ("version", c.version),
        ("valid_from", .str c.valid_from), ("valid_until", .str c.valid_until),
        ("serial_number", .str c.serial_number), ("error", .none),
        ("days_until_expiry", .int c.days_until_expiry)]

/-- One parsed cookie from `response.cookies` as read by
`check_cookie_security`. -/
structure CookieRec where
  name : String
  secure : Bool
  httponly : Bool
  samesite : Option String
  domain : String
  path : String
  expires : Value

/-- The per-cookie dict built at clike3.py:2877-2885. -/
def cookieDataValue (c : CookieRec) : Value :=
  Value.dict [("name", .str c.name), ("secure", .bool c.secure),
    ("httponly", .bool c.httponly),
    ("samesite", match c.samesite with | Option.some s => .str s | Option.none => .none),
    ("domain", .str c.domain), ("path", .str c.path), ("expires", c.expires)]

/-- Loop accumulator of `check_cookie_security`. -/
structure CookieAcc where
  cookieVals : List Value
  insecureNames : List Value
  secureCount : Int
  httponlyCount : Int
  samesiteCount : Int

/-- `check_cookie_security` (clike3.py:2864-2908).  The payload keys are
`cookies`, `insecure_cookies` and three `*_cookie_count` fields — never
the `cookies_without_*` fields the Scorer's cookie_sec branch reads. -/
def check_cookie_security (cookies : List CookieRec) : Value :=
  let acc := cookies.foldl (fun (a : CookieAcc) c =>
    let samesiteTruthy := match c.samesite with
      | Option.some s => !(s == "")
      | Option.none => false
    { cookieVals := a.cookieVals ++ [cookieDataValue c]
      insecureNames :=
        if !c.secure || !c.httponly then a.insecureNames ++ [.str c.name]
        else a.insecureNames
      secureCount := a.secureCount + (if c.secure then 1 else 0)
      httponlyCount := a.httponlyCount + (if c.httponly then 1 else 0)
      samesiteCount := a.samesiteCount + (if samesiteTruthy then 1 else 0) })
    ⟨[], [], 0, 0, 0⟩
  Value.dict [("cookies", .list acc.cookieVals), ("insecure_cookies", .list acc.insecureNames),
    ("secure_cookie_count", .int acc.secureCount),
    ("httponly_cookie_count", .int acc.httponlyCount),
    ("samesite_cookie_count", .int acc.samesiteCount)]

/-- `check_for_vulns` (clike3.py:3005-3121).  The five passive scans
(reflected parameters, CSRF, open redirects, host-header injection,
outdated libraries) are HTML/regex collaborator work; their finding
dicts arrive as inputs.  The payload keys are `potential_vulns`,
`checks_performed` and `disclaimer` — never the `vulnerabilities` key
the Scorer's vulns branch reads. -/
def check_for_vulns (reflected csrf redirects hostHeader outdated : List Value) : Value :=
  Value.dict [("potential_vulns",
      .list (reflected ++ csrf ++ redirects ++ hostHeader ++ outdated)),
    ("checks_performed",
      .list [.str "Reflected parameter check", .str "CSRF protection check",
        .str "Open redirect check", .str "Host header injection check",
        .str "Outdated library check"]),
    ("disclaimer",
      .str "This is a passive scan and may produce false positives or miss vulnerabilities.")]

/-- One form containing a password input, as analysed by
`check_password_forms`. -/
structure PwFormRec where
  action : String
  method : String
  has_autocomplete_off : Bool
  has_csrf_token : Bool
  has_captcha : Bool

/-- `submits_over_https` per clike3.py:3220-3223. -/
def pwFormSubmitsHttps (f : PwFormRec) : Bool :=
  strStartsWith f.action "https://" ||
    (!strStartsWith f.action "http://" && !strStartsWith f.action "//")

/-- The per-form dict built at clike3.py:3205-3212 (with the two
computed fields filled in). -/
def pwFormValue (f : PwFormRec) : Value :=
  Value.dict [("action", .str f.action), ("method", .str f.method),
    ("has_autocomplete_off", .bool f.has_autocomplete_off),
    ("submits_over_https", .bool (pwFormSubmitsHttps f)),
    ("has_csrf_token", .bool f.has_csrf_token), ("has_captcha", .bool f.has_captcha)]

/-- `check_password_forms` (clike3.py:3188-3247).  The payload keys are
`total_password_forms`, `forms`, `secure_forms`, `insecure_forms` —
never the `insecure_password_forms` key the Scorer's passwords branch
reads. -/
def check_password_forms (forms : List PwFormRec) : Value :=
  let secure := (forms.filter (fun f => f.method == "POST" && pwFormSubmitsHttps f)).length
  let insecure := (forms.filter (fun f => !(f.method == "POST" && pwFormSubmitsHttps f))).length
  Value.dict [("total_password_forms", .int forms.length),
    ("forms", .list (forms.map pwFormValue)),
    ("secure_forms", .int secure), ("insecure_forms", .int insecure)]

/-- The eight risky-deserialization patterns of clike3.py:3760-3769,
identified by their description (the regexes themselves are collaborator
work). -/
def deserPatterns : List String :=
  ["eval() with JSON.parse or atob", "document.write with parsed data",
   "innerHTML assignment with parsed data", "JSON.parse with localStorage data",
   "JSON.parse with sessionStorage data",
   "PHP-style unserialize function (may be custom implementation)",
   "Custom deserialize function", "Custom fromJSON function"]

/-- `check_insecure_deserialization` (clike3.py:3744-3781).  `countFor`
gives the number of regex matches of each pattern in the page's inline
scripts.  The payload keys are `potential_issues`, `checked`,
`disclaimer` — never the `potentially_vulnerable` key the Scorer's
deserialize branch reads. -/
def check_insecure_deserialization (countFor : String → Nat) : Value :=
  Value.dict [("potential_issues",
      .list (deserPatterns.filterMap (fun p =>
        if countFor p > 0 then
          Option.some (Value.dict [("pattern", .str p), ("occurrences", .int (countFor p)),
            ("severity", .str "Medium")])
        else Option.none))),
    ("checked", .bool true),
    ("disclaimer",
      .str "This is a heuristic check and may produce false positives or miss vulnerabilities.")]

/-- `check_for_leaks` (clike3.py:2672-2728).  HTML comments are
filtered/truncated per the source; the regex-extracted email/IP lists
and the credential-pattern hit arrive from collaborators.  The payload
keys are `html_comments`, `server_info`, `email_addresses`,
`ip_addresses`, `potential_credentials` — never the `sensitive_info`
key the Scorer's leaks branch reads. -/
def check_for_leaks (comments : List String) (serverHeader : Option String)
    (emails ips : List String) (credsFound : Bool) : Value :=
  let kept := (comments.map String.trim).filter (fun c => !(c == "") && c.length > 5)
  Value.dict [("html_comments",
      .list (kept.map (fun c => .str (if c.length > 150 then c.take 150 ++ "..." else c)))),
    ("server_info", match serverHeader with | Option.some s => .str s | Option.none => .none),
    ("email_addresses", .list (emails.map .str)),
    ("ip_addresses", .list (ips.map .str)),
    ("potential_credentials", .bool credsFound)]

/-- The ten important headers of clike3.py:2643-2654 with their
descriptions. -/
def importantHeaders : List (String × String) :=
  [("Strict-Transport-Security", "Protects against downgrade attacks and cookie hijacking"),
   ("Content-Security-Policy", "Prevents XSS and data injection attacks"),
   ("X-Content-Type-Options", "Prevents MIME-sniffing"),
   ("X-Frame-Options", "Protects against clickjacking"),
   ("X-XSS-Protection", "Browser's XSS filtering"),
   ("Referrer-Policy", "Controls what information is sent in the Referer header"),
   ("Feature-Policy", "Controls which browser features can be used"),
   ("Permissions-Policy", "Modern replacement for Feature-Policy"),
   ("Cache-Control", "Controls caching of sensitive content"),
   ("Clear-Site-Data", "Clears browsing data for the origin")]

/-- Loop accumulator of `check_security_headers`. -/
structure HdrAcc where
  missing : List Value
  present : List (String × Value)
  score : Int

/-- `check_security_headers` (clike3.py:2631-2669).  The payload keys
are `missing`, `present`, `score`, `max_score` — never the
`missing_headers` key the Scorer's sec_headers branch reads. -/
def check_security_headers (hdr : String → Option String) : Value :=
  let acc := importantHeaders.foldl (fun (a : HdrAcc) p =>
    match hdr p.1 with
    | Option.some v =>
        { a with
          present := a.present ++ [(p.1, Value.dict [("value", .str v),
            ("description", .str p.2)])]
          score := a.score + 1 }
    | Option.none =>
        { a with
          missing := a.missing ++ [Value.dict [("header", .str p.1),
            ("description", .str p.2)]] })
    ⟨[], [], 0⟩
  Value.dict [("missing", .list acc.missing), ("present", .dict acc.present),
    ("score", .int acc.score), ("max_score", .int 10)]

example :
    calculate_threat_score "csp" (check_csp_policy (fun _ => Option.none)) = .ok 20 := rfl
example :
    calculate_threat_score "csp"
      (check_csp_policy (fun k =>
        if k = "Content-Security-Policy" then Option.some "default-src x" else Option.none)) =
      .ok 0 := rfl
example :
    calculate_threat_score "csp"
      (check_csp_policy (fun k =>
        if k = "Content-Security-Policy" then Option.some "" else Option.none)) = .ok 20 := rfl
example :
    calculate_threat_score "ssl" (check_ssl_info (.error "timeout")) = .ok 0 := rfl
example :
    calculate_threat_score "cookie_sec" (check_cookie_security []) = .ok 0 := rfl

/-! ## Helper lemmas -/

/-- Whether an `Except` is the error case. -/
def isFailure {α : Type} : Except PyErr α → Bool
  | .error _ => true
  | .ok _ => false

theorem dictGet_mem {α : Type} {d : List (String × α)} {k : String} {v : α}
    (h : dictGet d k = Option.some v) : (k, v) ∈ d := by
  induction d with
  | nil => simp [dictGet] at h
  | cons p rest ih =>
    obtain ⟨k', v'⟩ := p
    by_cases hk : k' = k
    · subst hk
      simp [dictGet] at h
      subst h
      exact List.mem_cons_self _ _
    · simp [dictGet, hk] at h
      exact List.mem_cons_of_mem _ (ih h)

theorem dictGet_dictSet_ne {α : Type} (d : List (String × α)) (k' k : String) (v : α)
    (h : k' ≠ k) : dictGet (dictSet d k' v) k = dictGet d k := by
  induction d with
  | nil => simp [dictSet, dictGet, h]
  | cons p rest ih =>
    obtain ⟨k₀, v₀⟩ := p
    by_cases h0 : k₀ = k'
    · subst h0
      simp [dictSet, dictGet, h]
    · simp [dictSet, dictGet, h0, ih]

theorem dictGet_dictSet_self {α : Type} (d : List (String × α)) (k : String) (v : α) :
    dictGet (dictSet d k v) k = Option.some v := by
  induction d with
  | nil => simp [dictSet, dictGet]
  | cons p rest ih =>
    obtain ⟨k₀, v₀⟩ := p
    by_cases h0 : k₀ = k
    · subst h0
      simp [dictSet, dictGet]
    · simp [dictSet, dictGet, h0, ih]

theorem ne_http_append (u : String) : "http://" ++ u ≠ u := by
  intro h
  have := congrArg String.length h
  rw [String.length_append] at this
  have h7 : ("http://" : String).length = 7 := rfl
  omega

theorem normalize_url_of_no_scheme {u : String} (h1 : strStartsWith u "http://" = false)
    (h2 : strStartsWith u "https://" = false) : normalize_url u = "http://" ++ u := by
  simp [normalize_url, h1, h2]

/-- The Scorer's `security` branch only tests truthiness, so it always
returns a score. -/
theorem security_calc_ok (v : Value) :
    ∃ n, calculate_threat_score "security" v = .ok n := by
  cases v <;> exact ⟨_, rfl⟩

theorem run_checks_ok_iff (order : List String) (checks : String → Except PyErr Value) :
    run_checks_list order checks = .ok () ↔
      ∀ c ∈ order, isFailure (checks c) = false := by
  induction order with
  | nil => simp [run_checks_list]
  | cons c rest ih =>
    constructor
    · intro h c' hc'
      cases hcc : checks c with
      | error e => rw [run_checks_list, hcc] at h; exact absurd h (by simp)
      | ok v =>
        rcases List.mem_cons.mp hc' with h' | h'
        · subst h'; simp [isFailure, hcc]
        · rw [run_checks_list, hcc] at h
          exact ih.mp h c' h'
    · intro h
      cases hcc : checks c with
      | error e =>
        have := h c (List.mem_cons_self _ _)
        rw [hcc] at this
        simp [isFailure] at this
      | ok v =>
        rw [run_checks_list, hcc]
        exact ih.mpr (fun c' hc' => h c' (List.mem_cons_of_mem _ hc'))

theorem weights_pos (k : String) : 0 < weights k := by
  unfold weights
  cases h : dictGet weightTable k with
  | none => norm_num
  | some w =>
    have hmem := dictGet_mem h
    simp only [weightTable, List.mem_cons, List.not_mem_nil, or_false] at hmem
    rcases hmem with h' | h' | h' | h' | h' | h' | h' | h' | h' | h' | h' | h' <;>
      (injection h' with hk hw; subst hw; norm_num)

theorem totalWeightQ_pos {scores : List (String × Int)} (h : scores ≠ []) :
    0 < totalWeightQ scores := by
  apply List.sum_pos
  · intro x hx
    obtain ⟨p, _, hp⟩ := List.mem_map.mp hx
    exact hp ▸ weights_pos p.1
  · simpa using h

theorem totalScoreQ_nonneg {scores : List (String × Int)}
    (h : ∀ p ∈ scores, 0 ≤ p.2) : 0 ≤ totalScoreQ scores := by
  apply List.sum_nonneg
  intro x hx
  obtain ⟨p, hp, hpx⟩ := List.mem_map.mp hx
  subst hpx
  have h1 : (0 : ℚ) ≤ (p.2 : ℚ) := by exact_mod_cast h p hp
  exact mul_nonneg h1 (weights_pos p.1).le

theorem totalScoreQ_le {scores : List (String × Int)}
    (h : ∀ p ∈ scores, p.2 ≤ 100) :
    totalScoreQ scores ≤ 100 * totalWeightQ scores := by
  induction scores with
  | nil => simp [totalScoreQ, totalWeightQ]
  | cons p rest ih =>
    have hp : (p.2 : ℚ) ≤ 100 := by exact_mod_cast h p (List.mem_cons_self _ _)
    have hrest := ih (fun q hq => h q (List.mem_cons_of_mem _ hq))
    have hw := (weights_pos p.1).le
    simp only [totalScoreQ, totalWeightQ, List.map_cons, List.sum_cons] at *
    have : (p.2 : ℚ) * weights p.1 ≤ 100 * weights p.1 :=
      mul_le_mul_of_nonneg_right hp hw
    linarith

theorem pyRound_bounds {a b : ℤ} {x : ℚ} (ha : (a : ℚ) ≤ x) (hb : x ≤ (b : ℚ)) :
    a ≤ pyRound x ∧ pyRound x ≤ b := by
  have hfa : a ≤ ⌊x⌋ := Int.le_floor.mpr ha
  have hfb : ⌊x⌋ ≤ b := by
    have : (⌊x⌋ : ℚ) ≤ (b : ℚ) := le_trans (Int.floor_le x) hb
    exact_mod_cast this
  unfold pyRound
  split_ifs with h1 h2 h3
  · exact ⟨hfa, hfb⟩
  · constructor
    · omega
    · have hx : (⌊x⌋ : ℚ) + 1/2 ≤ x := by
        have := Int.sub_one_lt_floor x
        push_neg at h1
        linarith
      have : (⌊x⌋ : ℚ) + 1/2 ≤ (b : ℚ) := le_trans hx hb
      have hlt : (⌊x⌋ : ℚ) < (b : ℚ) := by linarith
      have : ⌊x⌋ < b := by exact_mod_cast hlt
      omega
  · exact ⟨hfa, hfb⟩
  · constructor
    · omega
    · push_neg at h1 h2
      have heq : x - ⌊x⌋ = 1/2 := le_antisymm h2 h1
      have hx : (⌊x⌋ : ℚ) + 1/2 ≤ x := by linarith
      have : (⌊x⌋ : ℚ) + 1/2 ≤ (b : ℚ) := le_trans hx hb
      have hlt : (⌊x⌋ : ℚ) < (b : ℚ) := by linarith
      have : ⌊x⌋ < b := by exact_mod_cast hlt
      omega

/-- The weighted mean of scores in `[0,100]` rounds into `[0,100]`. -/
theorem pyRound_mean_bounds {scores : List (String × Int)} (hne : scores ≠ [])
    (hb : ∀ p ∈ scores, 0 ≤ p.2 ∧ p.2 ≤ 100) :
    0 ≤ pyRound (totalScoreQ scores / totalWeightQ scores) ∧
      pyRound (totalScoreQ scores / totalWeightQ scores) ≤ 100 := by
  have hw := totalWeightQ_pos hne
  have h0 : (0 : ℚ) ≤ totalScoreQ scores / totalWeightQ scores :=
    div_nonneg (totalScoreQ_nonneg (fun p hp => (hb p hp).1)) hw.le
  have h100 : totalScoreQ scores / totalWeightQ scores ≤ (100 : ℚ) := by
    rw [div_le_iff₀ hw]
    simpa [mul_comm] using totalScoreQ_le (fun p hp => (hb p hp).2)
  exact pyRound_bounds (by exact_mod_cast h0) (by exact_mod_cast h100)

/-- Payload condition: every int-valued field is nonnegative (as is the
case for every payload this repository's check functions construct). -/
def intFieldsNonNeg (d : List (String × Value)) : Prop :=
  ∀ p ∈ d, ∀ m : Int, p.2 = Value.int m → 0 ≤ m

theorem pts_nonneg {c : Int} (b : Bool) (hc : 0 ≤ c) : 0 ≤ pts b c := by
  unfold pts
  split <;> simp [hc]

theorem pyIntTimes_get_nonneg {d : List (String × Value)} (hd : intFieldsNonNeg d)
    {k : String} {c m : Int} (hc : 0 ≤ c)
    (h : pyIntTimes (dictGetD d k (.int 0)) c = .ok m) : 0 ≤ m := by
  unfold dictGetD at h
  cases hv : dictGet d k with
  | none => rw [hv] at h; simp [pyIntTimes] at h; omega
  | some v =>
    rw [hv] at h
    have hmem := dictGet_mem hv
    cases v with
    | int n =>
      simp [pyIntTimes] at h
      have hn : 0 ≤ n := hd (k, Value.int n) hmem n rfl
      subst h
      exact mul_nonneg hn hc
    | bool b =>
      simp [pyIntTimes] at h
      subst h
      split <;> simp [hc]
    | none => simp [pyIntTimes] at h
    | str s => simp [pyIntTimes] at h
    | list l => simp [pyIntTimes] at h
    | dict d' => simp [pyIntTimes] at h

theorem pyLen_ok_nonneg {v : Value} {m : Int} (h : pyLen v = .ok m) : 0 ≤ m := by
  cases v <;> simp [pyLen] at h <;> omega

/-- Under `intFieldsNonNeg`, every branch of the raw Scorer sum is
nonnegative. -/
theorem threat_score_raw_nonneg {kind : String} {d : List (String × Value)}
    (hd : intFieldsNonNeg d) {s : Int}
    (h : threat_score_raw kind (Value.dict d) = .ok s) : 0 ≤ s := by
  replace h : threat_score_dict kind d = .ok s := h
  unfold threat_score_dict at h
  by_cases k1 : kind = "security"
  · rw [if_pos k1] at h
    simp only [Except.ok.injEq] at h
    subst h
    have h1 := pts_nonneg (c := 30) (!truthy (dictGetD d "is_https" (.bool false))) (by norm_num)
    have h2 := pts_nonneg (c := 10) (!truthy (dictGetD d "hsts" (.bool false))) (by norm_num)
    have h3 := pts_nonneg (c := 10)
      (!truthy (dictGetD d "content_security_policy" (.bool false))) (by norm_num)
    have h4 := pts_nonneg (c := 5)
      (!truthy (dictGetD d "x_content_type_options" (.bool false))) (by norm_num)
    have h5 := pts_nonneg (c := 5)
      (!truthy (dictGetD d "x_frame_options" (.bool false))) (by norm_num)
    have h6 := pts_nonneg (c := 5)
      (!truthy (dictGetD d "x_xss_protection" (.bool false))) (by norm_num)
    linarith
  rw [if_neg k1] at h
  by_cases k2 : kind = "mixed_content"
  · rw [if_pos k2] at h
    simp only [Except.ok.injEq] at h
    subst h
    exact pts_nonneg _ (by norm_num)
  rw [if_neg k2] at h
  by_cases k3 : kind = "cookie_sec"
  · rw [if_pos k3] at h
    cases h1 : pyIntTimes (dictGetD d "cookies_without_secure" (.int 0)) 10 with
    | error e => rw [h1] at h; simp at h
    | ok s1 =>
      rw [h1] at h
      dsimp only at h
      cases h2 : pyIntTimes (dictGetD d "cookies_without_httponly" (.int 0)) 8 with
      | error e => rw [h2] at h; simp at h
      | ok s2 =>
        rw [h2] at h
        dsimp only at h
        cases h3 : pyIntTimes (dictGetD d "cookies_without_samesite" (.int 0)) 5 with
        | error e => rw [h3] at h; simp at h
        | ok s3 =>
          rw [h3] at h
          dsimp only at h
          simp only [Except.ok.injEq] at h
          subst h
          have n1 := pyIntTimes_get_nonneg hd (by norm_num) h1
          have n2 := pyIntTimes_get_nonneg hd (by norm_num) h2
          have n3 := pyIntTimes_get_nonneg hd (by norm_num) h3
          linarith
  rw [if_neg k3] at h
  by_cases k4 : kind = "clickjacking"
  · rw [if_pos k4] at h
    simp only [Except.ok.injEq] at h
    subst h
    exact pts_nonneg _ (by norm_num)
  rw [if_neg k4] at h
  by_cases k5 : kind = "csp"
  · rw [if_pos k5] at h
    simp only [Except.ok.injEq] at h
    subst h
    have h1 := pts_nonneg (c := 20) (!truthy (dictGetD d "has_csp" (.bool false))) (by norm_num)
    have h2 := pts_nonneg (c := 10)
      (truthy (dictGetD d "has_unsafe_inline" (.bool false))) (by norm_num)
    have h3 := pts_nonneg (c := 10)
      (truthy (dictGetD d "has_unsafe_eval" (.bool false))) (by norm_num)
    linarith
  rw [if_neg k5] at h
  by_cases k6 : kind = "iframe_security"
  · rw [if_pos k6] at h
    cases h1 : pyLen (dictGetD d "insecure_iframes" (.list [])) with
    | error e => rw [h1] at h; simp at h
    | ok n =>
      rw [h1] at h
      dsimp only at h
      simp only [Except.ok.injEq] at h
      subst h
      have := pyLen_ok_nonneg h1
      positivity
  rw [if_neg k6] at h
  by_cases k7 : kind = "ssl"
  · rw [if_pos k7] at h
    simp only [Except.ok.injEq] at h
    subst h
    have h1 := pts_nonneg (c := 40) (!truthy (dictGetD d "valid" (.bool true))) (by norm_num)
    have h2 := pts_nonneg (c := 40) (truthy (dictGetD d "expired" (.bool false))) (by norm_num)
    have h3 := pts_nonneg (c := 20) (truthy (dictGetD d "self_signed" (.bool false))) (by norm_num)
    have h4 := pts_nonneg (c := 15)
      (truthy (dictGetD d "weak_signature" (.bool false))) (by norm_num)
    linarith
  rw [if_neg k7] at h
  by_cases k8 : kind = "vulns"
  · rw [if_pos k8] at h
    cases h1 : pyLen (dictGetD d "vulnerabilities" (.list [])) with
    | error e => rw [h1] at h; simp at h
    | ok n =>
      rw [h1] at h
      dsimp only at h
      simp only [Except.ok.injEq] at h
      subst h
      have := pyLen_ok_nonneg h1
      positivity
  rw [if_neg k8] at h
  by_cases k9 : kind = "passwords"
  · rw [if_pos k9] at h
    exact pyIntTimes_get_nonneg hd (by norm_num) h
  rw [if_neg k9] at h
  by_cases k10 : kind = "deserialize"
  · rw [if_pos k10] at h
    simp only [Except.ok.injEq] at h
    subst h
    exact pts_nonneg _ (by norm_num)
  rw [if_neg k10] at h
  by_cases k11 : kind = "leaks"
  · rw [if_pos k11] at h
    cases h1 : pyLen (dictGetD d "sensitive_info" (.list [])) with
    | error e => rw [h1] at h; simp at h
    | ok n =>
      rw [h1] at h
      dsimp only at h
      simp only [Except.ok.injEq] at h
      subst h
      have := pyLen_ok_nonneg h1
      positivity
  rw [if_neg k11] at h
  by_cases k12 : kind = "sec_headers"
  · rw [if_pos k12] at h
    cases h1 : pyLen (dictGetD d "missing_headers" (.list [])) with
    | error e => rw [h1] at h; simp at h
    | ok n =>
      rw [h1] at h
      dsimp only at h
      simp only [Except.ok.injEq] at h
      subst h
      have := pyLen_ok_nonneg h1
      positivity
  rw [if_neg k12] at h
  simp only [Except.ok.injEq] at h
  omega

theorem calculate_threat_score_le {kind : String} {data : Value} {n : Int}
    (h : calculate_threat_score kind data = .ok n) : n ≤ 100 := by
  unfold calculate_threat_score at h
  cases hr : threat_score_raw kind data with
  | error e => rw [hr] at h; exact absurd h (by simp)
  | ok s =>
    rw [hr] at h
    simp only [Except.ok.injEq] at h
    omega

/-! ## Claim theorems -/

/-- C3 (amended): whenever `calculate_threat_score` returns a score it
is at most 100 (the `min(score, 100)` cap saturates, never wraps), and
for payloads whose int-valued fields are all nonnegative — as in every
payload this repository's check functions construct — the score lies in
[0,100].  For arbitrary payloads the lower bound fails (see the
counterexample: a negative cookie count yields a negative score, since
the code only caps from above). -/
theorem c3_per_check_score_bounds :
    (∀ (kind : String) (data : Value) (n : Int),
      calculate_threat_score kind data = .ok n → n ≤ 100) ∧
    (∀ (kind : String) (d : List (String × Value)) (n : Int), intFieldsNonNeg d →
      calculate_threat_score kind (Value.dict d) = .ok n → 0 ≤ n ∧ n ≤ 100) := by
  constructor
  · intro kind data n h
    exact calculate_threat_score_le h
  · intro kind d n hd h
    refine ⟨?_, calculate_threat_score_le h⟩
    unfold calculate_threat_score at h
    cases hr : threat_score_raw kind (Value.dict d) with
    | error e => rw [hr] at h; simp at h
    | ok s =>
      rw [hr] at h
      dsimp only at h
      simp only [Except.ok.injEq] at h
      subst h
      have := threat_score_raw_nonneg hd hr
      omega

/-- C3 counterexample: a cookie_sec payload with a negative field value
makes the Scorer return −10, outside [0,100]. -/
theorem c3_counterexample :
    calculate_threat_score "cookie_sec"
      (Value.dict [("cookies_without_secure", Value.int (-1))]) = .ok (-10) ∧
    ¬(0 ≤ (-10 : Int)) :=
  ⟨rfl, by norm_num⟩

/-- C3 witness: the bounds theorem applied at Scenario B's cookie
payload (score 28). -/
theorem c3_per_check_score_bounds_witness :
    (28 : Int) ≤ 100 ∧ (0 ≤ (28 : Int) ∧ (28 : Int) ≤ 100) := by
  constructor
  · exact c3_per_check_score_bounds.1 "cookie_sec"
      (Value.dict [("cookies_without_secure", Value.int 2),
        ("cookies_without_httponly", Value.int 1),
        ("cookies_without_samesite", Value.int 0)]) 28 rfl
  · apply c3_per_check_score_bounds.2 "cookie_sec"
      [("cookies_without_secure", Value.int 2), ("cookies_without_httponly", Value.int 1),
        ("cookies_without_samesite", Value.int 0)] 28
    · intro p hp m hm
      simp only [List.mem_cons, List.not_mem_nil, or_false] at hp
      rcases hp with h | h | h <;> subst h <;> dsimp only at hm <;>
        (injection hm with hm; omega)
    · rfl

/-- C4 (amended): a payload missing the expected fields never makes the
Scorer raise — every missing field is read through `.get` with a
per-field default.  The defaults are not all score-neutral: for the
protection-absence fields the missing field scores as if the protection
is absent (security 65, csp 20, clickjacking 25), while kinds whose
defaults are neutral score 0 (ssl, vulns, ...); a bool in a numeric
field coerces to 0/1.  Wrong-typed values in the numeric or list-valued
fields, however, raise TypeError (see the counterexample). -/
theorem c4_missing_fields_never_raise :
    (∀ kind : String, ∃ n, calculate_threat_score kind (Value.dict []) = .ok n) ∧
    calculate_threat_score "security" (Value.dict []) = .ok 65 ∧
    calculate_threat_score "csp" (Value.dict []) = .ok 20 ∧
    calculate_threat_score "ssl" (Value.dict []) = .ok 0 ∧
    calculate_threat_score "vulns" (Value.dict []) = .ok 0 ∧
    calculate_threat_score "cookie_sec"
      (Value.dict [("cookies_without_secure", Value.bool true)]) = .ok 10 := by
  refine ⟨?_, rfl, rfl, rfl, rfl, rfl⟩
  intro kind
  by_cases k1 : kind = "security"
  · subst k1; exact ⟨_, rfl⟩
  by_cases k2 : kind = "mixed_content"
  · subst k2; exact ⟨_, rfl⟩
  by_cases k3 : kind = "cookie_sec"
  · subst k3; exact ⟨_, rfl⟩
  by_cases k4 : kind = "clickjacking"
  · subst k4; exact ⟨_, rfl⟩
  by_cases k5 : kind = "csp"
  · subst k5; exact ⟨_, rfl⟩
  by_cases k6 : kind = "iframe_security"
  · subst k6; exact ⟨_, rfl⟩
  by_cases k7 : kind = "ssl"
  · subst k7; exact ⟨_, rfl⟩
  by_cases k8 : kind = "vulns"
  · subst k8; exact ⟨_, rfl⟩
  by_cases k9 : kind = "passwords"
  · subst k9; exact ⟨_, rfl⟩
  by_cases k10 : kind = "deserialize"
  · subst k10; exact ⟨_, rfl⟩
  by_cases k11 : kind = "leaks"
  · subst k11; exact ⟨_, rfl⟩
  by_cases k12 : kind = "sec_headers"
  · subst k12; exact ⟨_, rfl⟩
  have hdict : threat_score_dict kind [] = .ok 0 := by
    unfold threat_score_dict
    rw [if_neg k1, if_neg k2, if_neg k3, if_neg k4, if_neg k5, if_neg k6, if_neg k7,
      if_neg k8, if_neg k9, if_neg k10, if_neg k11, if_neg k12]
  refine ⟨0, ?_⟩
  unfold calculate_threat_score threat_score_raw
  dsimp only
  rw [hdict]
  norm_num

/-- C4 counterexample: a missing `protected` field contributes 25 (not
0) for clickjacking, and a wrong-typed cookie count raises TypeError
(`0 + "x"*10`) instead of being treated as absent. -/
theorem c4_counterexample :
    calculate_threat_score "clickjacking" (Value.dict []) = .ok 25 ∧
    calculate_threat_score "cookie_sec"
      (Value.dict [("cookies_without_secure", Value.str "x")]) = .error .typeError :=
  ⟨rfl, rfl⟩

/-- C8: the payloads actually constructed by this repository's
check_ssl_info, check_cookie_security, check_for_vulns,
check_password_forms, check_insecure_deserialization, check_for_leaks
and check_security_headers never contain the keys the Scorer reads for
those kinds, so the Scorer returns 0 on every such payload. -/
theorem c8_repo_payloads_score_zero :
    (∀ res, calculate_threat_score "ssl" (check_ssl_info res) = .ok 0) ∧
    (∀ cookies, calculate_threat_score "cookie_sec" (check_cookie_security cookies) = .ok 0) ∧
    (∀ r c rd hh od, calculate_threat_score "vulns" (check_for_vulns r c rd hh od) = .ok 0) ∧
    (∀ forms, calculate_threat_score "passwords" (check_password_forms forms) = .ok 0) ∧
    (∀ countFor,
      calculate_threat_score "deserialize" (check_insecure_deserialization countFor) = .ok 0) ∧
    (∀ cm sh em ip cr,
      calculate_threat_score "leaks" (check_for_leaks cm sh em ip cr) = .ok 0) ∧
    (∀ hdr, calculate_threat_score "sec_headers" (check_security_headers hdr) = .ok 0) := by
  refine ⟨fun res => ?_, fun cookies => rfl, fun r c rd hh od => rfl, fun forms => rfl,
    fun countFor => rfl, fun cm sh em ip cr => rfl, fun hdr => rfl⟩
  cases res <;> rfl

/-- Truthiness of the Content-Security-Policy header value as
`check_csp_policy` sees it (`if csp:`). -/
def csp_header_truthy (hdr : String → Option String) : Bool :=
  match hdr "Content-Security-Policy" with
  | Option.some s => !(s == "")
  | Option.none => false

/-- C9 (amended): on every payload produced by `check_csp_policy`, the
Scorer's csp score is exactly 20 when the Content-Security-Policy
header is absent or empty (falsy), and exactly 0 otherwise; the +10
unsafe-inline and +10 unsafe-eval rules never fire, because the check
stores those findings under `unsafe_inline`/`unsafe_eval` while the
Scorer reads `has_unsafe_inline`/`has_unsafe_eval`. -/
theorem c9_csp_score_const :
    ∀ hdr, calculate_threat_score "csp" (check_csp_policy hdr) =
      .ok (if csp_header_truthy hdr then 0 else 20) := by
  intro hdr
  unfold csp_header_truthy check_csp_policy
  cases h : hdr "Content-Security-Policy" with
  | none =>
    simp [calculate_threat_score, threat_score_raw, threat_score_dict,
      dictGetD, dictGet, truthy, pts]
  | some s =>
    by_cases hs : s = "" <;>
      simp [hs, calculate_threat_score, threat_score_raw, threat_score_dict,
        dictGetD, dictGet, truthy, pts]

/-- C9 counterexample to the claim as stated: a response that does have
a Content-Security-Policy header, with an empty value, still scores 20
(the claim says 0 for every response that has the header). -/
theorem c9_counterexample :
    ((fun k => if k = "Content-Security-Policy" then Option.some "" else Option.none)
        "Content-Security-Policy" = Option.some "") ∧
    calculate_threat_score "csp"
      (check_csp_policy
        (fun k => if k = "Content-Security-Policy" then Option.some "" else Option.none)) =
      .ok 20 :=
  ⟨rfl, rfl⟩

/-- C5: for every non-empty stored score set (scores in [0,100], as the
data model guarantees), the overall score equals the banker's-rounded
weighted arithmetic mean — the upper cap `min(..., 100)` never bites —
and lies in [0,100]; the weight table defaults to 1 for unlisted kinds;
and Scenario E ({security:50, ssl:90}) yields 72, category High. -/
theorem c5_weighted_mean :
    (∀ (st : ScanState) (url : String) (scores : List (String × Int))
        (details : List (String × Detail)),
      dictGet st.threat_scores url = Option.some scores →
      dictGet st.threat_details url = Option.some details →
      scores ≠ [] →
      (∀ p ∈ scores, 0 ≤ p.2 ∧ p.2 ≤ 100) →
      calculate_overall_threat_score st url =
        .ok (pyRound (totalScoreQ scores / totalWeightQ scores), details) ∧
      0 ≤ pyRound (totalScoreQ scores / totalWeightQ scores) ∧
      pyRound (totalScoreQ scores / totalWeightQ scores) ≤ 100) ∧
    (∀ k : String, dictGet weightTable k = Option.none → weights k = 1) ∧
    calculate_overall_threat_score
      ⟨[("u", [("security", 50), ("ssl", 90)])], [("u", [])]⟩ "u" = .ok (72, []) ∧
    get_threat_category 72 = "High Risk" := by
  refine ⟨?_, ?_, ?_, rfl⟩
  · intro st url scores details h1 h2 hne hb
    have hw := totalWeightQ_pos hne
    obtain ⟨hlo, hhi⟩ := pyRound_mean_bounds hne hb
    refine ⟨?_, hlo, hhi⟩
    unfold calculate_overall_threat_score
    rw [h1, h2]
    dsimp only
    have hni : scores.isEmpty = false := by
      cases scores with
      | nil => exact absurd rfl hne
      | cons a l => rfl
    rw [hni]
    simp only [Bool.false_eq_true, if_false]
    rw [if_neg hw.ne']
    rw [min_eq_left hhi]
  · intro k h
    unfold weights
    rw [h]
    rfl
  · simp [calculate_overall_threat_score, dictGet, totalScoreQ, totalWeightQ, weights,
      weightTable, List.map, List.sum, pyRound]
    all_goals norm_num [Int.fract]

/-- C5 witness: the weighted-mean theorem applied at Scenario D's
single ssl contribution. -/
theorem c5_weighted_mean_witness :
    calculate_overall_threat_score ⟨[("w", [("ssl", 90)])], [("w", [])]⟩ "w" =
      .ok (pyRound (totalScoreQ [("ssl", 90)] / totalWeightQ [("ssl", 90)]), []) ∧
    0 ≤ pyRound (totalScoreQ [("ssl", 90)] / totalWeightQ [("ssl", 90)]) ∧
    pyRound (totalScoreQ [("ssl", 90)] / totalWeightQ [("ssl", 90)]) ≤ 100 := by
  apply c5_weighted_mean.1 ⟨[("w", [("ssl", 90)])], [("w", [])]⟩ "w" [("ssl", 90)] []
  · rfl
  · rfl
  · simp
  · intro p hp
    simp only [List.mem_cons, List.not_mem_nil, or_false] at hp
    subst hp
    norm_num

/-- C6: a session with no scoring-eligible contributions (url never
seeded, or seeded with an empty score dict) aggregates to the defined
terminal result — score 0, empty contributions — and
`get_threat_category 0` is the Low category; no error is raised. -/
theorem c6_empty_session :
    (∀ (st : ScanState) (url : String), dictGet st.threat_scores url = Option.none →
      calculate_overall_threat_score st url = .ok (0, [])) ∧
    (∀ (st : ScanState) (url : String) (details : List (String × Detail)),
      dictGet st.threat_scores url = Option.some [] →
      dictGet st.threat_details url = Option.some details →
      calculate_overall_threat_score st url = .ok (0, [])) ∧
    get_threat_category 0 = "Low Risk" := by
  refine ⟨?_, ?_, rfl⟩
  · intro st url h
    unfold calculate_overall_threat_score
    rw [h]
  · intro st url details h1 h2
    unfold calculate_overall_threat_score
    rw [h1, h2]
    rfl

/-- C6 witness: both empty branches at concrete states. -/
theorem c6_empty_session_witness :
    calculate_overall_threat_score ⟨[], []⟩ "u" = .ok (0, []) ∧
    calculate_overall_threat_score ⟨[("u", [])], [("u", [])]⟩ "u" = .ok (0, []) :=
  ⟨c6_empty_session.1 ⟨[], []⟩ "u" rfl, c6_empty_session.2.1 ⟨[("u", [])], [("u", [])]⟩ "u" [] rfl rfl⟩

/-- C7: the aggregated overall score is invariant under any permutation
of the stored contribution set (the weighted sum is commutative). -/
theorem c7_perm_invariant :
    ∀ (st1 st2 : ScanState) (url : String) (s1 s2 : List (String × Int))
      (details : List (String × Detail)),
      dictGet st1.threat_scores url = Option.some s1 →
      dictGet st2.threat_scores url = Option.some s2 →
      dictGet st1.threat_details url = Option.some details →
      dictGet st2.threat_details url = Option.some details →
      s1.Perm s2 →
      calculate_overall_threat_score st1 url = calculate_overall_threat_score st2 url := by
  intro st1 st2 url s1 s2 details h1 h2 h3 h4 hp
  have hts : totalScoreQ s1 = totalScoreQ s2 := (hp.map _).sum_eq
  have htw : totalWeightQ s1 = totalWeightQ s2 := (hp.map _).sum_eq
  unfold calculate_overall_threat_score
  rw [h1, h2, h3, h4]
  dsimp only
  by_cases hnil : s1 = []
  · have hnil2 : s2 = [] := by
      subst hnil
      exact hp.symm.eq_nil
    subst hnil
    subst hnil2
    rfl
  · have hnil2 : s2 ≠ [] := by
      intro hh
      subst hh
      exact hnil hp.eq_nil
    have he1 : s1.isEmpty = false := by
      cases s1 with
      | nil => exact absurd rfl hnil
      | cons a l => rfl
    have he2 : s2.isEmpty = false := by
      cases s2 with
      | nil => exact absurd rfl hnil2
      | cons a l => rfl
    rw [he1, he2, hts, htw]

/-- C7 witness: the two Scenario E contributions in both orders give the
same overall result. -/
theorem c7_perm_invariant_witness :
    calculate_overall_threat_score
        ⟨[("u", [("security", 50), ("ssl", 90)])], [("u", [])]⟩ "u" =
      calculate_overall_threat_score
        ⟨[("u", [("ssl", 90), ("security", 50)])], [("u", [])]⟩ "u" :=
  c7_perm_invariant _ _ "u" [("security", 50), ("ssl", 90)] [("ssl", 90), ("security", 50)]
    [] rfl rfl rfl rfl (List.Perm.swap ("ssl", 90) ("security", 50) [])

/-- C1 (the code contradicts the claim, and its own threat-score
display): under "run everything" — `args.all` set with no individual
flag — the scoring-eligible checks all run and store their results
(`security_info`, `csp_policy`, ... are present in `results`), yet the
accumulation guards at clike3.py:2038-2132 each test the individual
flag, so no `ScoreContribution` is ever stored and the assessment the
code then computes and displays is always score 0, category Low, empty
contributions — even though routing the stored results through the
Scorer would score them (security 65, csp 20 on the sample payload).
The `process_url --all` path likewise aggregates a state that
`run_all_checks` never wrote, always yielding (0, {}). -/
theorem c1_all_mode_stores_no_contributions :
    process_url_with_results_scoring argsAllOnly "http://example.com" true
        (fun _ => Value.dict []) ⟨[], []⟩ =
      .ok (⟨[("http://example.com", [])], [("http://example.com", [])]⟩,
        Option.some (0, "Low Risk", [])) ∧
    dictGet (buildResults argsAllOnly (fun _ => Value.dict [])) "security_info" =
      Option.some (Value.dict []) ∧
    dictGet (buildResults argsAllOnly (fun _ => Value.dict [])) "csp_policy" =
      Option.some (Value.dict []) ∧
    calculate_threat_score "security" (Value.dict []) = .ok 65 ∧
    calculate_threat_score "csp" (Value.dict []) = .ok 20 ∧
    process_url_all false "http://example.com" true (fun _ => .ok (Value.dict []))
        ⟨[], []⟩ = .ok (Option.some (0, [])) :=
  ⟨rfl, rfl, rfl, rfl, rfl, rfl⟩

/-- C2 (amended): the orchestration has no per-check exception
boundary.  If any check function in the fixed `run_all_checks` order
raises, the exception propagates out of `process_url` and that URL's
scan aborts with no ThreatAssessment; only when every check returns
normally does the scan reach aggregation (and, since `run_all_checks`
stores no scores, the assessment is then (0, {})). -/
theorem c2_no_check_exception_boundary :
    (∀ (lite : Bool) (rawUrl : String) (checks : String → Except PyErr Value)
        (st0 : ScanState),
      (∃ c ∈ checkOrder lite, isFailure (checks c) = true) →
      isFailure (process_url_all lite rawUrl true checks st0) = true) ∧
    (∀ (lite : Bool) (rawUrl : String) (checks : String → Except PyErr Value),
      (∀ c ∈ checkOrder lite, isFailure (checks c) = false) →
      process_url_all lite rawUrl true checks ⟨[], []⟩ = .ok (Option.some (0, []))) := by
  constructor
  · intro lite raw checks st0 hbad
    obtain ⟨c, hc, hfail⟩ := hbad
    cases hrun : run_all_checks lite checks with
    | error e => simp [process_url_all, hrun, isFailure]
    | ok u =>
      cases u
      have hall := (run_checks_ok_iff (checkOrder lite) checks).mp hrun
      rw [hall c hc] at hfail
      exact absurd hfail (by simp)
  · intro lite raw checks hall
    have hrun : run_all_checks lite checks = .ok () :=
      (run_checks_ok_iff (checkOrder lite) checks).mpr hall
    by_cases hs : strStartsWith raw "http://" || strStartsWith raw "https://"
    · simp [process_url_all, hrun, normalize_url, hs, calculate_overall_threat_score,
        dictGet, dictSet]
    · have hne : raw ≠ "http://" ++ raw := fun h => ne_http_append raw h.symm
      simp [process_url_all, hrun, normalize_url, hs, calculate_overall_threat_score,
        dictGet, dictSet, hne]

/-- C2 counterexample to the claim as stated: the fetch succeeds, a
single check (dns) raises, and the whole scan aborts with that
exception instead of reaching aggregation with the check marked
Unavailable. -/
theorem c2_counterexample :
    process_url_all false "http://example.com" true
      (fun c => if c = "dns_info" then .error (.exn "dns failure") else .ok (Value.dict []))
      ⟨[], []⟩ = .error (.exn "dns failure") :=
  rfl

/-- C2 witness: the amended theorem applied to a failing dns check and
to an all-ok check set. -/
theorem c2_no_check_exception_boundary_witness :
    isFailure (process_url_all false "u" true
      (fun c => if c = "dns_info" then .error (.exn "boom") else .ok (Value.dict []))
      ⟨[], []⟩) = true ∧
    process_url_all false "u" true (fun _ => .ok (Value.dict [])) ⟨[], []⟩ =
      .ok (Option.some (0, [])) :=
  ⟨c2_no_check_exception_boundary.1 false "u" _ ⟨[], []⟩
      ⟨"dns_info", by simp [checkOrder], rfl⟩,
    c2_no_check_exception_boundary.2 false "u" _ (fun c _ => rfl)⟩

/-- C10: for any input URL lacking an http/https scheme and not scanned
before (its normalized form absent from THREAT_SCORES), selecting the
security check makes `process_url_with_results` raise an uncaught
KeyError: the score accumulator is seeded under the raw URL before
`normalize_url` prepends the scheme, and the scoring write then indexes
the accumulator under the normalized URL, which was never seeded. -/
theorem c10_keyerror_on_unnormalized_url :
    ∀ (rawUrl : String) (checks : String → Value) (st0 : ScanState),
      strStartsWith rawUrl "http://" = false →
      strStartsWith rawUrl "https://" = false →
      dictGet st0.threat_scores ("http://" ++ rawUrl) = Option.none →
      process_url_with_results_scoring argsSecurityOnly rawUrl true checks st0 =
        .error (.keyError ("http://" ++ rawUrl)) := by
  intro raw checks st0 h1 h2 h3
  have hurl : normalize_url raw = "http://" ++ raw := normalize_url_of_no_scheme h1 h2
  have hne : raw ≠ "http://" ++ raw := fun h => ne_http_append raw h.symm
  obtain ⟨n, hn⟩ := security_calc_ok (checks "security")
  have hget : dictGet (dictSet st0.threat_scores raw ([] : List (String × Int)))
      ("http://" ++ raw) = Option.none := by
    rw [dictGet_dictSet_ne _ _ _ _ hne]
    exact h3
  simp [process_url_with_results_scoring, hurl, anyScoringFlag, argsSecurityOnly,
    buildResults, scoringPhase, scoreStep, andThenSt, dictGet, hn, writeThreat, hget]

/-- C10 witness: the KeyError theorem at the concrete URL
"example.com". -/
theorem c10_keyerror_witness :
    process_url_with_results_scoring argsSecurityOnly "example.com" true
      (fun _ => Value.dict []) ⟨[], []⟩ = .error (.keyError "http://example.com") :=
  c10_keyerror_on_unnormalized_url "example.com" (fun _ => Value.dict []) ⟨[], []⟩
    rfl rfl rfl

end WPT
